import Mathlib

/-!
Verification of the single-connection HTTP file server (`http_server.py`).

Python strings/bytes are modelled as `List Char` (`PyStr`); all content
relevant here is ASCII, where Python `str`/`bytes` operations coincide with
list operations.  Filesystem probing (`pathlib.Path.iterdir`, `open`) and the
text of executable scripts are modelled by an abstract filesystem state `FS`;
the process-global `sys.stdout` is modelled by an explicit `IOState` threaded
through the functions that touch it.  Python exceptions are modelled by
`Except PyErr`.
-/

abbrev PyStr := List Char

/-- Python exception classes that occur in the server's control flow.
`otherError` stands for any exception class not named in a handler
(e.g. `PermissionError`, or an arbitrary exception raised by a script). -/
inductive PyErr where
  | notImplementedError : PyErr
  | nameError : PyErr
  | fileNotFoundError : PyErr
  | notADirectoryError : PyErr
  | valueError : PyErr
  | otherError : PyErr
  deriving DecidableEq

/-- The current target of `sys.stdout`: the process's real output stream or an
in-memory `StringIO` buffer holding the characters written so far. -/
inductive Sink where
  | real : Sink
  | buffer : PyStr → Sink
  deriving DecidableEq

/-- The process-global output state: the current `sys.stdout` sink and the
characters that have actually reached the real output stream. -/
structure IOState where
  sink : Sink
  realOut : PyStr
  deriving DecidableEq

/-- A Python script's observable behavior when `exec`uted: the sequence of
writes it performs on `sys.stdout`, followed optionally by a raised error. -/
structure Script where
  writes : List PyStr
  raises : Option PyErr
  deriving DecidableEq

/-- Outcome of `pathlib.Path("./webroot/" + path).iterdir()`:
a successful enumeration (yielding the `str(child)` strings, which carry the
`webroot/` prefix), `NotADirectoryError`, or `FileNotFoundError`. -/
inductive ProbeResult where
  | dir : List PyStr → ProbeResult
  | notADirectory : ProbeResult
  | missing : ProbeResult
  deriving DecidableEq

/-- Abstract filesystem state under the document root, keyed by the request
path: `probe` is the outcome of `iterdir` on `"./webroot/" + path`;
`readFile` is the outcome of `open("./webroot/" + path, "rb").read()`;
`scriptAt` is the behavior of `exec(open("./webroot" + path).read())`. -/
structure FS where
  probe : PyStr → ProbeResult
  readFile : PyStr → Except PyErr PyStr
  scriptAt : PyStr → Script

/-- Characters of the first line: models `request.split("\r\n")[0]`. -/
def firstLine : List Char → List Char
  | [] => []
  | '\r' :: '\n' :: _ => []
  | c :: rest => c :: firstLine rest

/-- Models Python's `s.split(sep)` for a one-character separator. -/
def splitOnChar (sep : Char) : List Char → List (List Char)
  | [] => [[]]
  | c :: rest =>
      if c = sep then [] :: splitOnChar sep rest
      else
        match splitOnChar sep rest with
        | [] => [[c]]
        | h :: t => (c :: h) :: t

/-- Models Python's `sep.join(parts)` on bytes. -/
def bytesJoin (sep : PyStr) : List PyStr → PyStr
  | [] => []
  | [x] => x
  | x :: xs => x ++ sep ++ bytesJoin sep xs

/-- Models Python's `s[-n:]` slice (for `n ≥ 1`). -/
def takeLast (n : Nat) (l : PyStr) : PyStr := l.drop (l.length - n)

/-- Extension-to-type table modelling the entries of Python's `mimetypes`
registry needed here (keys are the lowercase extension without the dot). -/
def mime_map : List (PyStr × PyStr) :=
  [("html".data, "text/html".data), ("htm".data, "text/html".data),
   ("txt".data, "text/plain".data), ("py".data, "text/x-python".data),
   ("png".data, "image/png".data), ("css".data, "text/css".data),
   ("json".data, "application/json".data), ("jpeg".data, "image/jpeg".data)]

/-- Models `mimetypes.MimeTypes().guess_type(url)[0]`: take the final path
component, take its extension (the part after the last dot, absent when the
component has no dot or only a leading dot), and look it up. -/
def guess_type (url : PyStr) : Option PyStr :=
  let base := ((splitOnChar '/' url).getLast?).getD []
  match splitOnChar '.' base with
  | [] => none
  | [_] => none
  | parts => mime_map.lookup (((parts.getLast?).getD []))

/-- Lines 120-124 of `response_path`: the guessed MIME type of
`"./webroot/" + path`, defaulted to `text/plain` when no type is guessed. -/
def guessedMime (path : PyStr) : PyStr :=
  match guess_type ("./webroot/".data ++ path) with
  | none => "text/plain".data
  | some m => m

/-- `response_ok(body, mimetype)` from the source: the 200 response bytes. -/
def response_ok (body mimetype : PyStr) : PyStr :=
  bytesJoin "\r\n".data
    ["HTTP/1.1 200 OK".data,
     "Content-Type: ".data ++ mimetype,
     [],
     body]

/-- `response_method_not_allowed()` from the source: the 405 response bytes. -/
def response_method_not_allowed : PyStr :=
  bytesJoin "\r\n".data
    ["HTTP/1.1 405 Method Not Allowed".data,
     [],
     "You can't do that on this server!".data]

/-- `response_not_found()` from the source: the 404 response bytes. -/
def response_not_found : PyStr :=
  bytesJoin "\r\n".data
    ["HTTP/1.1 404 Not Found".data]

/-- `parse_request(request)` from the source: split the first line on spaces
into exactly method, path, version (a different count is a `ValueError` from
tuple unpacking); raise `NotImplementedError` unless the method is `GET`;
return the path. -/
def parse_request (request : PyStr) : Except PyErr PyStr :=
  match splitOnChar ' ' (firstLine request) with
  | [method, path, _version] =>
      if method = "GET".data then Except.ok path
      else Except.error PyErr.notImplementedError
  | _ => Except.error PyErr.valueError

/-- A single `sys.stdout` write: appends to the buffer when a `StringIO` is
installed, otherwise reaches the real output stream. -/
def writeOut (w : PyStr) (st : IOState) : IOState :=
  match st.sink with
  | Sink.real => { st with realOut := st.realOut ++ w }
  | Sink.buffer c => { st with sink := Sink.buffer (c ++ w) }

/-- Models `exec` of a script: perform its writes on the current `sys.stdout`
sink, then raise its error if it has one. -/
def execScript (s : Script) (st : IOState) : Except PyErr Unit × IOState :=
  let st2 := s.writes.foldl (fun acc w => writeOut w acc) st
  match s.raises with
  | none => (Except.ok (), st2)
  | some e => (Except.error e, st2)

/-- Models `with stdout_io() as output: body` together with the
`stdout_io` generator (lines 14-22): save the old sink, install a fresh
`StringIO`, run the body.  On normal completion the generator resumes past
its `yield` and restores the old sink, and the `StringIO` contents are
available via `output.getvalue()`.  When the body raises, the exception is
thrown into the generator at the `yield`; the generator has no
`try/finally`, so the line `sys.stdout = old` never runs and the error
propagates with the buffer still installed. -/
def stdout_io_with (body : IOState → Except PyErr Unit × IOState) (st : IOState) :
    Except PyErr PyStr × IOState :=
  let old := st.sink
  match body { st with sink := Sink.buffer [] } with
  | (Except.ok _, st2) =>
      (Except.ok (match st2.sink with
        | Sink.buffer c => c
        | Sink.real => []),
       { st2 with sink := old })
  | (Except.error e, st2) => (Except.error e, st2)

/-- `run_python_script(path)` from the source: `exec` the script stored for
this path under a captured `sys.stdout`, return the captured characters with
MIME type `text/html`. -/
def run_python_script (fs : FS) (path : PyStr) (st : IOState) :
    Except PyErr (PyStr × PyStr) × IOState :=
  match stdout_io_with (execScript (fs.scriptAt path)) st with
  | (Except.ok captured, st2) => (Except.ok (captured, "text/html".data), st2)
  | (Except.error e, st2) => (Except.error e, st2)

/-- The allow-list of executable scripts (line 117 of the source). -/
def valid_scripts : List PyStr := ["make_time.py".data]

/-- `response_path(path)` from the source.  Guess the MIME type (defaulting
to `text/plain`); attempt `iterdir`:
success yields the listing (each `str(child)` with its first 8 characters,
the `webroot/` prefix, dropped, terminated by CRLF);
`FileNotFoundError` is re-raised as `NameError`;
`NotADirectoryError` leads to the script check
`path[-3:] == ".py" and path[1:] in valid_scripts` — on success delegate to
`run_python_script`, otherwise read the file raw (an error from that `open`
is raised inside the `except NotADirectoryError:` handler and so propagates
uncaught by this `try`). -/
def response_path (fs : FS) (path : PyStr) (st : IOState) :
    Except PyErr (PyStr × PyStr) × IOState :=
  match fs.probe path with
  | ProbeResult.dir children =>
      (Except.ok
        (children.foldl (fun content child => content ++ child.drop 8 ++ "\r\n".data) [],
         guessedMime path), st)
  | ProbeResult.missing => (Except.error PyErr.nameError, st)
  | ProbeResult.notADirectory =>
      if takeLast 3 path = ".py".data ∧ path.drop 1 ∈ valid_scripts then
        run_python_script fs path st
      else
        match fs.readFile path with
        | Except.ok content => (Except.ok (content, guessedMime path), st)
        | Except.error e => (Except.error e, st)

/-- `response_path` instrumented with a flag recording whether
`run_python_script` was invoked; identical to `response_path` otherwise
(see `response_path_traced_erase`). -/
def response_path_traced (fs : FS) (path : PyStr) (st : IOState) :
    (Except PyErr (PyStr × PyStr) × IOState) × Bool :=
  match fs.probe path with
  | ProbeResult.dir children =>
      (((Except.ok
        (children.foldl (fun content child => content ++ child.drop 8 ++ "\r\n".data) [],
         guessedMime path), st)), false)
  | ProbeResult.missing => ((Except.error PyErr.nameError, st), false)
  | ProbeResult.notADirectory =>
      if takeLast 3 path = ".py".data ∧ path.drop 1 ∈ valid_scripts then
        (run_python_script fs path st, true)
      else
        match fs.readFile path with
        | Except.ok content => ((Except.ok (content, guessedMime path), st), false)
        | Except.error e => ((Except.error e, st), false)

/-- The per-request core of `server()` (lines 184-198): parse, resolve,
build the 200 response; `NotImplementedError` yields the 405 response,
`NameError` the 404 response; any other exception escapes the inner `try`
to the bare `except:` of the connection loop, which logs it and closes the
connection without sending anything (modelled as `none`). -/
def handle_request (fs : FS) (request : PyStr) (st : IOState) :
    Option PyStr × IOState :=
  match parse_request request with
  | Except.error PyErr.notImplementedError => (some response_method_not_allowed, st)
  | Except.error PyErr.nameError => (some response_not_found, st)
  | Except.error _ => (none, st)
  | Except.ok path =>
      match response_path fs path st with
      | (Except.ok (body, mimetype), st2) => (some (response_ok body mimetype), st2)
      | (Except.error PyErr.notImplementedError, st2) => (some response_method_not_allowed, st2)
      | (Except.error PyErr.nameError, st2) => (some response_not_found, st2)
      | (Except.error _, st2) => (none, st2)

/-- The initial output state: `sys.stdout` is the real stream, nothing
written yet. -/
def ioState0 : IOState := { sink := Sink.real, realOut := [] }

/-- The path with its leading separator stripped, when one is present.
Written from the words of the specification, for comparison with the
source's `path[1:]`, which drops the first character unconditionally. -/
def stripLeadingSlash : PyStr → PyStr
  | '/' :: rest => rest
  | p => p

/-- The script-eligibility condition as the specification words it: the last
three characters are `.py` and the path with its leading separator stripped
is in the allow-list.  Written from the spec, for comparison with the
source's `path[-3:] == ".py" and path[1:] in valid_scripts`. -/
abbrev specAllowedScript (path : PyStr) : Prop :=
  takeLast 3 path = ".py".data ∧ stripLeadingSlash path ∈ valid_scripts

/-- Concrete document-root contents used to exercise the theorems:
`/make_time.py` is the allow-listed script (it writes an HTML fragment),
`amake_time.py` is a distinct regular file whose raw source is `SOURCE` and
whose execution would write `RAN`, `/notes.txt` is a regular file,
`/pics.html` is a directory with one child, and `/file.txt/extra` is a path
whose prefix is a regular file, so both `iterdir` and `open` raise
`NotADirectoryError` on it. -/
def fsA : FS :=
  { probe := fun p =>
      if p = "/make_time.py".data then ProbeResult.notADirectory
      else if p = "amake_time.py".data then ProbeResult.notADirectory
      else if p = "/file.txt/extra".data then ProbeResult.notADirectory
      else if p = "/notes.txt".data then ProbeResult.notADirectory
      else if p = "/pics.html".data then ProbeResult.dir ["webroot/pics.html/a.png".data]
      else ProbeResult.missing,
    readFile := fun p =>
      if p = "/file.txt/extra".data then Except.error PyErr.notADirectoryError
      else if p = "/notes.txt".data then Except.ok "hello".data
      else if p = "amake_time.py".data then Except.ok "SOURCE".data
      else Except.error PyErr.fileNotFoundError,
    scriptAt := fun p =>
      if p = "amake_time.py".data then { writes := ["RAN".data], raises := none }
      else { writes := ["<html>time</html>".data], raises := none } }

/-- A document root whose allow-listed script writes `partial output` to
standard output and then raises an exception. -/
def fsBad : FS :=
  { probe := fun _ => ProbeResult.notADirectory,
    readFile := fun _ => Except.error PyErr.fileNotFoundError,
    scriptAt := fun _ => { writes := ["partial output".data], raises := some PyErr.otherError } }

theorem foldl_writeOut_buffer (ws : List PyStr) (c : PyStr) (st : IOState)
    (h : st.sink = Sink.buffer c) :
    ws.foldl (fun acc w => writeOut w acc) st =
      { sink := Sink.buffer (c ++ ws.flatten), realOut := st.realOut } := by
  induction ws generalizing c st with
  | nil =>
      cases st with
      | mk sink realOut => simp at h; simp [h]
  | cons w ws ih =>
      simp only [List.foldl_cons]
      rw [ih (c ++ w) (writeOut w st) (by simp [writeOut, h])]
      simp [writeOut, h, List.append_assoc]

theorem run_python_script_ok (fs : FS) (p : PyStr) (st : IOState) (ws : List PyStr)
    (h : fs.scriptAt p = { writes := ws, raises := none }) :
    run_python_script fs p st = (Except.ok (ws.flatten, "text/html".data), st) := by
  unfold run_python_script stdout_io_with execScript
  rw [h]
  simp only
  rw [foldl_writeOut_buffer ws [] { st with sink := Sink.buffer [] } rfl]
  simp

theorem run_python_script_err (fs : FS) (p : PyStr) (st : IOState) (ws : List PyStr) (e : PyErr)
    (h : fs.scriptAt p = { writes := ws, raises := some e }) :
    run_python_script fs p st =
      (Except.error e, { sink := Sink.buffer ws.flatten, realOut := st.realOut }) := by
  unfold run_python_script stdout_io_with execScript
  rw [h]
  simp only
  rw [foldl_writeOut_buffer ws [] { st with sink := Sink.buffer [] } rfl]
  simp

theorem response_path_traced_erase (fs : FS) (p : PyStr) (st : IOState) :
    (response_path_traced fs p st).1 = response_path fs p st := by
  unfold response_path_traced response_path
  cases hp : fs.probe p with
  | dir children => rfl
  | missing => rfl
  | notADirectory =>
      simp only
      by_cases hc : takeLast 3 p = ".py".data ∧ p.drop 1 ∈ valid_scripts
      · rw [if_pos hc, if_pos hc]
      · rw [if_neg hc, if_neg hc]
        cases hr : fs.readFile p <;> simp only [hr]

theorem run_python_script_fst_const (fs : FS) (p : PyStr) (st st2 : IOState) :
    (run_python_script fs p st).1 = (run_python_script fs p st2).1 := by
  cases hs : fs.scriptAt p with
  | mk ws raises =>
      cases raises with
      | none =>
          rw [run_python_script_ok fs p st ws hs, run_python_script_ok fs p st2 ws hs]
      | some e =>
          rw [run_python_script_err fs p st ws e hs, run_python_script_err fs p st2 ws e hs]

theorem response_path_fst_const (fs : FS) (p : PyStr) (st st2 : IOState) :
    (response_path fs p st).1 = (response_path fs p st2).1 := by
  unfold response_path
  cases hp : fs.probe p with
  | dir children => rfl
  | missing => rfl
  | notADirectory =>
      simp only
      by_cases hc : takeLast 3 p = ".py".data ∧ p.drop 1 ∈ valid_scripts
      · rw [if_pos hc, if_pos hc]
        exact run_python_script_fst_const fs p st st2
      · rw [if_neg hc, if_neg hc]
        cases hr : fs.readFile p <;> simp only [hr]

/-- C5: for every raw request whose first line consists of exactly the three
space-separated fields `GET`, `<path>`, `HTTP/1.1`, parsing succeeds and
returns the path (the method and version fields of the parsed request are
the `GET` and `HTTP/1.1` named in the hypothesis). -/
theorem parse_request_get_yields_path (request p : PyStr)
    (h : splitOnChar ' ' (firstLine request) = ["GET".data, p, "HTTP/1.1".data]) :
    parse_request request = Except.ok p := by
  unfold parse_request
  rw [h]
  simp

theorem parse_request_get_yields_path_witness :
    parse_request "GET /a_web_page.html HTTP/1.1\r\nHost: x\r\n\r\n".data =
      Except.ok "/a_web_page.html".data :=
  parse_request_get_yields_path _ "/a_web_page.html".data (by decide)

/-- C3: for every request whose first line has exactly three space-separated
fields and whose method field is not `GET`, parsing fails with
`NotImplementedError` (the UnsupportedMethod condition) and the response
sent is byte-exact
`HTTP/1.1 405 Method Not Allowed\r\n\r\nYou can't do that on this server!`. -/
theorem non_get_method_not_allowed (fs : FS) (st : IOState) (request m p v : PyStr)
    (hsplit : splitOnChar ' ' (firstLine request) = [m, p, v])
    (hm : m ≠ "GET".data) :
    parse_request request = Except.error PyErr.notImplementedError ∧
    handle_request fs request st =
      (some "HTTP/1.1 405 Method Not Allowed\r\n\r\nYou can't do that on this server!".data,
       st) := by
  have hparse : parse_request request = Except.error PyErr.notImplementedError := by
    unfold parse_request
    rw [hsplit]
    simp [hm]
  refine ⟨hparse, ?_⟩
  unfold handle_request
  simp only [hparse]
  have hresp : response_method_not_allowed =
      "HTTP/1.1 405 Method Not Allowed\r\n\r\nYou can't do that on this server!".data := by
    decide
  rw [hresp]

theorem non_get_method_not_allowed_witness :
    handle_request fsA "POST /form HTTP/1.1\r\n\r\n".data ioState0 =
      (some "HTTP/1.1 405 Method Not Allowed\r\n\r\nYou can't do that on this server!".data,
       ioState0) :=
  (non_get_method_not_allowed fsA ioState0 _ "POST".data "/form".data "HTTP/1.1".data
    (by decide) (by decide)).2

/-- C4: for every path with no filesystem mapping under the document root
(`iterdir` raises the does-not-exist condition), resolution fails with
`NameError` (the NotFound condition) and the response sent is byte-exact
`HTTP/1.1 404 Not Found`, with no body and no trailing line break. -/
theorem missing_path_not_found (fs : FS) (st : IOState) (request p : PyStr)
    (hparse : parse_request request = Except.ok p)
    (hprobe : fs.probe p = ProbeResult.missing) :
    response_path fs p st = (Except.error PyErr.nameError, st) ∧
    handle_request fs request st = (some "HTTP/1.1 404 Not Found".data, st) := by
  have hresp : response_path fs p st = (Except.error PyErr.nameError, st) := by
    unfold response_path
    rw [hprobe]
  refine ⟨hresp, ?_⟩
  unfold handle_request
  simp only [hparse, hresp]
  have h404 : response_not_found = "HTTP/1.1 404 Not Found".data := by decide
  rw [h404]

theorem missing_path_not_found_witness :
    handle_request fsA "GET /no_such_page.html HTTP/1.1\r\n\r\n".data ioState0 =
      (some "HTTP/1.1 404 Not Found".data, ioState0) :=
  (missing_path_not_found fsA ioState0 "GET /no_such_page.html HTTP/1.1\r\n\r\n".data
    "/no_such_page.html".data rfl rfl).2

/-- C6: for every body and MIME type, `response_ok` returns exactly the
status line, the Content-Type header, one empty line, and the body verbatim,
joined by CRLF, with no Content-Length header and no bytes after the body. -/
theorem response_ok_byte_exact (body mimetype : PyStr) :
    response_ok body mimetype =
      "HTTP/1.1 200 OK\r\nContent-Type: ".data ++ mimetype ++ "\r\n\r\n".data ++ body := by
  simp [response_ok, bytesJoin]

/-- C1 (counterexample): the claim keys the allow-list check to the path
with its leading separator stripped, but the source drops the first
character unconditionally (`path[1:]`).  For the requested path
`amake_time.py` — a regular file under the document root, not allow-listed
under the claim's reading — the Script Runner is nevertheless invoked and
its captured output is returned instead of the raw file content `SOURCE`. -/
theorem allowlist_check_drops_first_char_counterexample :
    ¬ specAllowedScript "amake_time.py".data ∧
    (response_path_traced fsA "amake_time.py".data ioState0).2 = true ∧
    (response_path_traced fsA "amake_time.py".data ioState0).1 =
      (Except.ok ("RAN".data, "text/html".data), ioState0) ∧
    fsA.readFile "amake_time.py".data = Except.ok "SOURCE".data := by
  refine ⟨by decide, rfl, rfl, rfl⟩

/-- C1 (amended): `run_python_script` is invoked if and only if the probe of
the path raises the not-a-directory condition, the path's last three
characters are `.py`, and the path with its first character dropped
(`path[1:]`, not a leading-separator strip) is in the allow-list
`["make_time.py"]`; every other path reaching the regular-file branch is
served as raw file content with the guessed MIME type, not executed. -/
theorem script_runner_invocation_characterization (fs : FS) (p : PyStr) (st : IOState) :
    ((response_path_traced fs p st).2 = true ↔
      fs.probe p = ProbeResult.notADirectory ∧
        takeLast 3 p = ".py".data ∧ p.drop 1 ∈ valid_scripts) ∧
    (∀ content : PyStr, fs.probe p = ProbeResult.notADirectory →
      ¬(takeLast 3 p = ".py".data ∧ p.drop 1 ∈ valid_scripts) →
      fs.readFile p = Except.ok content →
      (response_path_traced fs p st).1 = (Except.ok (content, guessedMime p), st)) := by
  constructor
  · unfold response_path_traced
    cases hp : fs.probe p with
    | dir children => simp
    | missing => simp
    | notADirectory =>
        simp only
        by_cases hc : takeLast 3 p = ".py".data ∧ p.drop 1 ∈ valid_scripts
        · rw [if_pos hc]
          exact iff_of_true rfl ⟨by trivial, hc⟩
        · rw [if_neg hc]
          cases hr : fs.readFile p <;>
            exact iff_of_false (by simp) (fun h => hc h.2)
  · intro content h1 h2 h3
    unfold response_path_traced
    simp only [h1]
    rw [if_neg h2]
    simp only [h3]

theorem script_runner_invocation_characterization_witness :
    (response_path_traced fsA "/make_time.py".data ioState0).2 = true ∧
    (response_path_traced fsA "/notes.txt".data ioState0).1 =
      (Except.ok ("hello".data, guessedMime "/notes.txt".data), ioState0) := by
  constructor
  · exact (script_runner_invocation_characterization fsA "/make_time.py".data ioState0).1.mpr
      ⟨rfl, by decide, by decide⟩
  · exact (script_runner_invocation_characterization fsA "/notes.txt".data ioState0).2
      "hello".data rfl (by decide) rfl

/-- C2 (code evaluated at the failing input): starting from the real
standard-output sink, executing a script that raises propagates the error
while leaving `sys.stdout` pointing at the capture buffer — the generator in
`stdout_io` has no `try/finally`, so the restoring assignment is skipped on
the error path, contradicting the restore-on-every-exit-path claim. -/
theorem stdout_not_restored_on_script_error :
    ioState0.sink = Sink.real ∧
    run_python_script fsBad "/make_time.py".data ioState0 =
      (Except.error PyErr.otherError,
       { sink := Sink.buffer "partial output".data, realOut := [] }) ∧
    Sink.buffer "partial output".data ≠ Sink.real := by
  refine ⟨rfl, rfl, by decide⟩

/-- C7 (code evaluated at the failing input): for a directory whose name
carries a recognized extension (`/pics.html`), the listing body is correct
(each immediate child exactly once, document-root prefix dropped, CRLF
terminated) but the MIME type is the guessed `text/html`, not the
`text/plain` promised for every directory. -/
theorem directory_with_extension_not_text_plain :
    fsA.probe "/pics.html".data = ProbeResult.dir ["webroot/pics.html/a.png".data] ∧
    response_path fsA "/pics.html".data ioState0 =
      (Except.ok ("pics.html/a.png\r\n".data, "text/html".data), ioState0) ∧
    "text/html".data ≠ "text/plain".data := by
  refine ⟨rfl, rfl, by decide⟩

/-- C8: for every allow-listed script path reaching the script branch whose
script completes normally, resolution returns exactly the concatenation of
the script's standard-output writes as the body with MIME type `text/html`,
restores the output state, and no write reaches the real output stream
while the capture buffer is installed. -/
theorem allowlisted_script_captured_output (fs : FS) (st : IOState) (p : PyStr)
    (ws : List PyStr)
    (hprobe : fs.probe p = ProbeResult.notADirectory)
    (hpy : takeLast 3 p = ".py".data)
    (hmem : p.drop 1 ∈ valid_scripts)
    (hscript : fs.scriptAt p = { writes := ws, raises := none }) :
    response_path fs p st = (Except.ok (ws.flatten, "text/html".data), st) ∧
    ((execScript (fs.scriptAt p) { sink := Sink.buffer [], realOut := st.realOut }).2).realOut
      = st.realOut := by
  constructor
  · unfold response_path
    simp only [hprobe]
    rw [if_pos ⟨hpy, hmem⟩]
    exact run_python_script_ok fs p st ws hscript
  · rw [hscript]
    unfold execScript
    rw [foldl_writeOut_buffer ws [] { sink := Sink.buffer [], realOut := st.realOut } rfl]

theorem allowlisted_script_captured_output_witness :
    response_path fsA "/make_time.py".data ioState0 =
      (Except.ok ((["<html>time</html>".data]).flatten, "text/html".data), ioState0) :=
  (allowlisted_script_captured_output fsA ioState0 "/make_time.py".data
    ["<html>time</html>".data] rfl (by decide) (by decide) (by decide)).1

/-- C9: the response bytes produced for a request depend only on the request
and the document-root contents, not on the mutable standard-output state, so
issuing the same request twice against unchanged document-root content
yields byte-identical responses (including the allow-listed-script case,
whose body is rebuilt from a fresh capture buffer each time). -/
theorem response_bytes_deterministic (fs : FS) (request : PyStr) (st st2 : IOState) :
    (handle_request fs request st).1 = (handle_request fs request st2).1 := by
  unfold handle_request
  cases hp : parse_request request with
  | error e => cases e <;> rfl
  | ok path =>
      simp only
      have h := response_path_fst_const fs path st st2
      rcases h1 : response_path fs path st with ⟨r1, s1⟩
      rcases h2 : response_path fs path st2 with ⟨r2, s2⟩
      rw [h1, h2] at h
      have h3 : r1 = r2 := h
      subst h3
      cases r1 with
      | ok v =>
          rcases v with ⟨body, mimetype⟩
          rfl
      | error e => cases e <;> rfl

/-- C10: when the probe raises the not-a-directory condition, the script
check fails, and the subsequent `open` itself raises a filesystem error (as
for `/file.txt/extra`, whose prefix is a regular file), that error
propagates out of `response_path` uncaught — it is not converted to the
NotFound condition — and the connection handler sends no response. -/
theorem open_error_propagates_uncaught (fs : FS) (st : IOState) (request p : PyStr)
    (e : PyErr)
    (hparse : parse_request request = Except.ok p)
    (hprobe : fs.probe p = ProbeResult.notADirectory)
    (hns : ¬(takeLast 3 p = ".py".data ∧ p.drop 1 ∈ valid_scripts))
    (hread : fs.readFile p = Except.error e)
    (hfse : e = PyErr.fileNotFoundError ∨ e = PyErr.notADirectoryError) :
    response_path fs p st = (Except.error e, st) ∧
    handle_request fs request st = (none, st) := by
  have hresp : response_path fs p st = (Except.error e, st) := by
    unfold response_path
    simp only [hprobe]
    rw [if_neg hns]
    simp only [hread]
  refine ⟨hresp, ?_⟩
  unfold handle_request
  simp only [hparse, hresp]
  rcases hfse with h | h
  · subst h
    rfl
  · subst h
    rfl

theorem open_error_propagates_uncaught_witness :
    handle_request fsA "GET /file.txt/extra HTTP/1.1\r\n\r\n".data ioState0 =
      (none, ioState0) :=
  (open_error_propagates_uncaught fsA ioState0
    "GET /file.txt/extra HTTP/1.1\r\n\r\n".data "/file.txt/extra".data
    PyErr.notADirectoryError rfl rfl (by decide) rfl (Or.inr rfl)).2
